import Mathlib

set_option maxRecDepth 200000
set_option synthInstance.maxSize 1024

/-!
Verification development for the actix-js HTTP server core.

The Rust sources under src/ are shallowly embedded as executable Lean
definitions: src/response.rs (response translation), src/request.rs
(request wrappers, response-state machine, query/multipart parsing),
src/router/store.rs and src/router/read_only.rs (route registry, reader
snapshot, LRU match cache), and src/lib.rs (the dispatcher
handle_dynamic_route).  Strings are modelled at the character level; the
concrete inputs used in counterexamples are ASCII, where character and
byte indexing coincide.
-/

namespace ActixJs

/-! ## src/response.rs -/

/-- Opaque callback handle id, standing in for Arc of ThreadsafeFunction. -/
abbrev Cb := Nat

/-- Mirror of enum InnerResp in src/response.rs; Raw carries byte values. -/
inductive InnerResp where
  | text (s : String)
  | json (s : String)
  | raw (b : List Nat)
  | emptyString
  | serverError
  | serverErrorWithMessage (msg : String)
deriving Repr, DecidableEq

/-- Mirror of struct JsResponse in src/response.rs. -/
structure JsResponse where
  inner : InnerResp
  statusCode : Option Nat
  headers : Option (List (String × String))
deriving Repr, DecidableEq

/-- Response body of the materialized HTTP response. -/
inductive RespBody where
  | str (s : String)
  | bytes (b : List Nat)
deriving Repr, DecidableEq

/-- Materialized HTTP response: status, content type, appended headers, body. -/
structure HttpResp where
  status : Nat
  contentType : String
  headers : List (String × String)
  body : RespBody
deriving Repr, DecidableEq

/-- Validity check of HeaderValue.from_str (http crate): every byte is
visible ASCII or above, or horizontal tab; DEL (127) is rejected.  Characters
at or above 128 are encoded as bytes at or above 128, which pass. -/
def isValidHeaderValue (v : String) : Bool :=
  v.data.all (fun c => c.toNat == 9 || (Nat.ble 32 c.toNat && !(c.toNat == 127)))

/-- StatusCode.from_u16 succeeds exactly on 100..=999. -/
def statusFromU16Valid (c : Nat) : Bool :=
  Nat.ble 100 c && Nat.ble c 999

/-- JsResponse::get_status_code: the override if it is a valid status code,
otherwise 200 (from_u16(..).unwrap_or(OK)). -/
def getStatusCode (r : JsResponse) : Nat :=
  match r.statusCode with
  | some c => if statusFromU16Valid c then c else 200
  | none => 200

/-- JsResponse::into_http_response from src/response.rs.  The ServerError
variants return early with a hard-coded 500 text/plain response, before the
custom headers are applied; the other variants build the response with the
computed status, the variant's content type, and the record's header pairs
appended in order with invalid header values skipped.  (Validity of header
names is not modelled; the code hands names to actix unchecked.) -/
def intoHttpResponse (r : JsResponse) : HttpResp :=
  match r.inner with
  | .serverError =>
      { status := 500, contentType := "text/plain", headers := []
      , body := .str "Internal Server Error" }
  | .serverErrorWithMessage msg =>
      { status := 500, contentType := "text/plain", headers := []
      , body := .str msg }
  | .text s =>
      { status := getStatusCode r, contentType := "text/plain; charset=utf-8"
      , headers := (r.headers.getD []).filter (fun kv => isValidHeaderValue kv.2)
      , body := .str s }
  | .emptyString =>
      { status := getStatusCode r, contentType := "text/plain; charset=utf-8"
      , headers := (r.headers.getD []).filter (fun kv => isValidHeaderValue kv.2)
      , body := .str "" }
  | .json s =>
      { status := getStatusCode r, contentType := "application/json; charset=utf-8"
      , headers := (r.headers.getD []).filter (fun kv => isValidHeaderValue kv.2)
      , body := .str s }
  | .raw b =>
      { status := getStatusCode r, contentType := "application/octet-stream"
      , headers := (r.headers.getD []).filter (fun kv => isValidHeaderValue kv.2)
      , body := .bytes b }

/-- Whether the variant takes the early error-return path of
into_http_response. -/
def isErrorVariant : InnerResp → Bool
  | .serverError | .serverErrorWithMessage _ => true
  | _ => false

/-- Content type the amended specification assigns to each non-error
variant. -/
def specContentType : InnerResp → String
  | .json _ => "application/json; charset=utf-8"
  | .raw _ => "application/octet-stream"
  | _ => "text/plain; charset=utf-8"

/-- Body the amended specification assigns to each variant. -/
def specBodyOf : InnerResp → RespBody
  | .text s => .str s
  | .json s => .str s
  | .raw b => .bytes b
  | .emptyString => .str ""
  | .serverError => .str "Internal Server Error"
  | .serverErrorWithMessage msg => .str msg

/-- Response translation as the amended specification words it: ServerError
variants produce a plain 500 with no custom headers and no status override;
all other variants use the override-or-200 status, the variant's content
type, and the record's headers appended in order with malformed values
skipped. -/
def specResponseTranslation (r : JsResponse) : HttpResp :=
  if isErrorVariant r.inner then
    { status := 500, contentType := "text/plain", headers := []
    , body := specBodyOf r.inner }
  else
    { status := getStatusCode r, contentType := specContentType r.inner
    , headers := (r.headers.getD []).filter (fun kv => isValidHeaderValue kv.2)
    , body := specBodyOf r.inner }

/-! ## src/request.rs: response-state machine

Both RequestWrapper and DetachedRequestWrapper keep the same response
state (sent flag, optional status override, accumulated response headers,
optional one-shot sender) and share the same send_response logic; the
state machine below embeds that shared logic. -/

/-- Response-side state of a request wrapper. -/
structure RespState where
  sent : Bool
  statusCode : Option Nat
  responseHeaders : List (String × String)
  hasSender : Bool
deriving Repr, DecidableEq

/-- Result of one operation on the response state. -/
inductive StepRes where
  | sendOk (emitted : Option JsResponse)
  | sendErr (msg : String)
  | statusSet (ok : Bool)
  | headerAdded
deriving Repr, DecidableEq

/-- The error message of a second terminal send (the AlreadySent error). -/
def alreadySentMsg : String := "响应已经发送"

/-- send_response from src/request.rs: fails if already sent, otherwise
marks sent, consumes the sender if present and emits the JsResponse built
from the current status override and accumulated headers. -/
def sendResponse (inner : InnerResp) (st : RespState) : RespState × StepRes :=
  if st.sent then (st, .sendErr alreadySentMsg)
  else
    let resp : JsResponse :=
      { inner := inner
      , statusCode := st.statusCode
      , headers :=
          if st.responseHeaders.isEmpty then none else some st.responseHeaders }
    if st.hasSender then
      ({ st with sent := true, hasSender := false }, .sendOk (some resp))
    else
      ({ st with sent := true }, .sendOk none)

/-- Operations a callback can perform on the response state.  sendObject
carries the already-serialized JSON text (serde serialization of a JSON
value cannot fail for string-keyed values). -/
inductive ReqOp where
  | sendText (s : String)
  | sendJson (s : String)
  | sendObject (serialized : String)
  | sendEmpty
  | sendError (msg : Option String)
  | setStatus (code : Nat)
  | addHeader (k v : String)
deriving Repr, DecidableEq

/-- Whether the operation is one of the five terminal sends. -/
def isTerminalSend : ReqOp → Bool
  | .sendText _ | .sendJson _ | .sendObject _ | .sendEmpty | .sendError _ => true
  | _ => false

/-- One operation: the five terminal sends go through send_response;
set_status_code refuses when sent or out of 100..999; add_header is a no-op
once sent. -/
def step : ReqOp → RespState → RespState × StepRes
  | .sendText s, st => sendResponse (.text s) st
  | .sendJson s, st => sendResponse (.json s) st
  | .sendObject s, st => sendResponse (.json s) st
  | .sendEmpty, st => sendResponse .emptyString st
  | .sendError none, st => sendResponse .serverError st
  | .sendError (some m), st => sendResponse (.serverErrorWithMessage m) st
  | .setStatus code, st =>
      if st.sent then (st, .statusSet false)
      else if Nat.ble 100 code && Nat.blt code 1000 then
        ({ st with statusCode := some code }, .statusSet true)
      else (st, .statusSet false)
  | .addHeader k v, st =>
      if st.sent then (st, .headerAdded)
      else ({ st with responseHeaders := st.responseHeaders ++ [(k, v)] }, .headerAdded)

/-- Run a sequence of operations, collecting each result. -/
def runOps : List ReqOp → RespState → RespState × List StepRes
  | [], st => (st, [])
  | op :: rest, st =>
      let s1 := step op st
      let s2 := runOps rest s1.1
      (s2.1, s1.2 :: s2.2)

/-- Whether one step result is a successful terminal send. -/
def isOkSend : StepRes → Bool
  | .sendOk _ => true
  | _ => false

/-- Number of successful terminal sends in a run. -/
def countOkSends (rs : List StepRes) : Nat := rs.countP isOkSend

/-! ## src/request.rs: body accessors -/

/-- has_body, identical in RequestWrapper and DetachedRequestWrapper:
a body buffer is attached and non-empty. -/
def has_body (body : Option (List Nat)) : Bool :=
  body.isSome && !((body.getD []).isEmpty)

/-- get_body_size, identical in both wrappers: byte length (cast to u32),
or 0 when no body is attached. -/
def get_body_size (body : Option (List Nat)) : Nat :=
  ((body.map List.length).getD 0) % 4294967296

/-! ## String helpers mirroring the Rust str operations used in
src/request.rs.  Indices are character indices; on the ASCII inputs of the
concrete theorems these coincide with Rust's byte indices. -/

/-- Splitter on a non-empty separator, driven by fuel (structural
recursion, so concrete instances reduce inside the kernel); the fuel is at
least the length of the input. -/
def splitOnFuel (sep : List Char) : Nat → List Char → List Char → List (List Char)
  | 0, rest, acc => [acc.reverse ++ rest]
  | _ + 1, [], acc => [acc.reverse]
  | fuel + 1, c :: t, acc =>
      if sep.isPrefixOf (c :: t) then
        acc.reverse :: splitOnFuel sep fuel ((c :: t).drop sep.length) []
      else
        splitOnFuel sep fuel t (c :: acc)

/-- str::split collected to a list (also the behavior of String.splitOn);
only ever called with non-empty separators. -/
def strSplitOn (s sep : String) : List String :=
  if sep.data.isEmpty then [s]
  else (splitOnFuel sep.data (s.data.length + 1) s.data []).map (fun l => ⟨l⟩)

/-- str::starts_with. -/
def strStartsWith (s pre : String) : Bool := pre.data.isPrefixOf s.data

/-- str::ends_with. -/
def strEndsWith (s suf : String) : Bool :=
  suf.data.reverse.isPrefixOf s.data.reverse

/-- str::to_lowercase (ASCII case folding suffices for the inputs used). -/
def strToLower (s : String) : String := ⟨s.data.map Char.toLower⟩

/-- str::trim. -/
def strTrim (s : String) : String :=
  ⟨((s.data.dropWhile Char.isWhitespace).reverse.dropWhile Char.isWhitespace).reverse⟩

/-- First index at which needle occurs, like str::find; the empty needle is
found at index 0. -/
def findSub (needle : List Char) : List Char → Option Nat
  | [] => if needle.isPrefixOf ([] : List Char) then some 0 else none
  | c :: t =>
      if needle.isPrefixOf (c :: t) then some 0
      else (findSub needle t).map (· + 1)

/-- str::find for strings. -/
def strFind (hay needle : String) : Option Nat := findSub needle.data hay.data

/-- str::contains for strings. -/
def strContains (hay needle : String) : Bool := (strFind hay needle).isSome

/-- The slice s[a..]. -/
def strSliceFrom (s : String) (a : Nat) : String := ⟨s.data.drop a⟩

/-- The slice s[a..b]. -/
def strSlice (s : String) (a b : Nat) : String := ⟨(s.data.drop a).take (b - a)⟩

/-- str::trim_matches(c): strip every leading and trailing occurrence of a
character. -/
def trimMatchesChar (c : Char) (s : String) : String :=
  ⟨((s.data.dropWhile (· == c)).reverse.dropWhile (· == c)).reverse⟩

/-- Repeatedly strip a non-empty pattern occurring as a prefix (used on
reversed lists to implement trim_end_matches); fuel-driven structural
recursion with fuel at least the length of the list. -/
def stripRevAll (rsep : List Char) : Nat → List Char → List Char
  | 0, rs => rs
  | fuel + 1, rs =>
      if !rsep.isEmpty && rsep.isPrefixOf rs then
        stripRevAll rsep fuel (rs.drop rsep.length)
      else rs

/-- str::trim_end_matches(sep): repeatedly remove the suffix sep. -/
def trimEndMatchesStr (s sep : String) : String :=
  ⟨(stripRevAll sep.data.reverse (s.data.length + 1) s.data.reverse).reverse⟩

/-- str::lines(): split on newline, drop a final empty piece, strip one
trailing carriage return per line. -/
def rustLines (s : String) : List String :=
  let parts := strSplitOn s "\n"
  let parts := if parts.getLastD "x" == "" then parts.dropLast else parts
  parts.map (fun l => if strEndsWith l "\r" then ⟨l.data.dropLast⟩ else l)

/-- str::split_once at the first equals sign (from
parse_query_params_static). -/
def splitOnceEq (s : String) : Option (String × String) :=
  match strFind s "=" with
  | none => none
  | some i => some (strSlice s 0 i, strSliceFrom s (i + 1))

/-- Map insertion with last-wins semantics, standing in for HashMap /
serde_json Map insertion; keys keep first-insertion order. -/
def assocPut (m : List (String × α)) (k : String) (v : α) : List (String × α) :=
  if m.any (fun kv => kv.1 == k) then
    m.map (fun kv => if kv.1 == k then (k, v) else kv)
  else m ++ [(k, v)]

/-- Lookup in the association-list map model. -/
def assocFind (m : List (String × α)) (k : String) : Option α :=
  (m.find? (fun kv => kv.1 == k)).map (·.2)

/-! ## src/request.rs: query-string parsing (DetachedRequestWrapper) -/

/-- DetachedRequestWrapper::parse_query_params_static: split the query on
ampersands, split each pair at the first equals sign, insert key and value
verbatim (no percent-decoding); pairs without an equals sign are dropped. -/
def parse_query_params_static (q : String) : List (String × String) :=
  (strSplitOn q "&").foldl
    (fun m pair =>
      match splitOnceEq pair with
      | some kv => assocPut m kv.1 kv.2
      | none => m) []

/-- Numeric value of a hex digit. -/
def hexVal (c : Char) : Nat :=
  if c.isDigit then c.toNat - 48
  else if 97 ≤ c.toNat ∧ c.toNat ≤ 102 then c.toNat - 87
  else c.toNat - 55

/-- Whether a character is a hexadecimal digit. -/
def isHexDigitChar (c : Char) : Bool :=
  c.isDigit || (Nat.ble 97 c.toNat && Nat.ble c.toNat 102)
    || (Nat.ble 65 c.toNat && Nat.ble c.toNat 70)

/-- Percent-decoding: a percent followed by two hex digits becomes the
denoted byte. -/
def percentDecodeAux : List Char → List Char
  | '%' :: a :: b :: rest =>
      if isHexDigitChar a && isHexDigitChar b then
        Char.ofNat (hexVal a * 16 + hexVal b) :: percentDecodeAux rest
      else '%' :: percentDecodeAux (a :: b :: rest)
  | c :: rest => c :: percentDecodeAux rest
  | [] => []

/-- Percent-decoding on strings. -/
def percentDecode (s : String) : String := ⟨percentDecodeAux s.data⟩

/-- Modelled from the spec: the standard key=value ampersand-separated
parse with percent-decoding applied to keys and values, as claim C6 reads
the specification. -/
def specQueryParse (q : String) : List (String × String) :=
  (strSplitOn q "&").foldl
    (fun m pair =>
      match splitOnceEq pair with
      | some kv => assocPut m (percentDecode kv.1) (percentDecode kv.2)
      | none => m) []

/-- The query- and body-relevant fields of DetachedRequestWrapper. -/
structure DetachedReq where
  queryString : String
  cachedQueryParams : Option (List (String × String))
  body : Option (List Nat)
deriving Repr, DecidableEq

/-- The precomputation done by DetachedRequestWrapper::new_detached: the
query-parameter cache is filled only for a non-empty query string. -/
def newDetached (queryStr : String) (body : Option (List Nat)) : DetachedReq :=
  { queryString := queryStr
  , cachedQueryParams :=
      if queryStr.isEmpty then none
      else some (parse_query_params_static queryStr)
  , body := body }

/-- DetachedRequestWrapper::get_query_params: the cached parse, or the
empty map. -/
def DetachedReq.queryParams (r : DetachedReq) : List (String × String) :=
  r.cachedQueryParams.getD []

/-! ## src/request.rs: multipart parsing -/

/-- Mirror of struct FileInfo (field names as serialized to the host). -/
structure FileInfo where
  type : String
  originalName : String
  filename : String
  path : String
  contentType : Option String
  size : Nat
deriving Repr, DecidableEq

/-- A form-data field value: text or file descriptor. -/
inductive FormVal where
  | str (s : String)
  | file (info : FileInfo)
deriving Repr, DecidableEq

/-- extract_form_field_name (identical in RequestWrapper and the static
variant): on each line whose lowercase form starts with
content-disposition:, take what stands between the first occurrence of
the name attribute opener and the next double quote; keep scanning lines
until one succeeds. -/
def extract_form_field_name (headers : String) : Option String :=
  (rustLines headers).findSome? (fun line =>
    if strStartsWith (strToLower line) "content-disposition:" then
      match strFind line "name=\"" with
      | some i =>
          let namePart := strSliceFrom line (i + 6)
          match strFind namePart "\"" with
          | some j => some (strSlice namePart 0 j)
          | none => none
      | none => none
    else none)

/-- extract_filename (identical in both variants), like
extract_form_field_name but for the filename attribute. -/
def extract_filename (headers : String) : Option String :=
  (rustLines headers).findSome? (fun line =>
    if strStartsWith (strToLower line) "content-disposition:" then
      match strFind line "filename=\"" with
      | some i =>
          let filenamePart := strSliceFrom line (i + 10)
          match strFind filenamePart "\"" with
          | some j => some (strSlice filenamePart 0 j)
          | none => none
      | none => none
    else none)

/-- extract_content_type (identical in both variants): the trimmed rest of
the first line whose lowercase form starts with content-type:. -/
def extract_content_type (headers : String) : Option String :=
  (rustLines headers).findSome? (fun line =>
    if strStartsWith (strToLower line) "content-type:" then
      some (strTrim (strSliceFrom line 13))
    else none)

/-- Boundary extraction from the content-type header (identical in both
variants): the text after boundary= up to the first semicolon, with
surrounding double quotes stripped, then trimmed. -/
def extractBoundary (ct : String) : Option String :=
  match strFind ct "boundary=" with
  | none => none
  | some i =>
      some (strTrim (trimMatchesChar (Char.ofNat 34)
        ((strSplitOn (strSliceFrom ct (i + 9)) ";").headD "")))

/-- The boundary actually used: when the body starts with two dashes, the
first line (up to a carriage-return newline, else up to a newline) with the
leading dashes removed; otherwise the header boundary. -/
def actualBoundary (bodyStr fallback : String) : String :=
  if strStartsWith bodyStr "--" then
    match strFind bodyStr "\r\n" with
    | some e => strSlice bodyStr 2 e
    | none =>
        match strFind bodyStr "\n" with
        | some e => strSlice bodyStr 2 e
        | none => fallback
  else fallback

/-- End of the header block of one part: the first blank line, trying the
carriage-return form first (shared verbatim by both parsers). -/
def partHeaderEnd (part : String) : Option Nat :=
  match strFind part "\r\n\r\n" with
  | some e => some e
  | none => strFind part "\n\n"

/-- Content of one part: after the blank line, with every trailing
carriage-return newline and then every trailing newline removed (shared
verbatim by both parsers). -/
def partContent (part : String) (headerEnd : Nat) : String :=
  let contentStart :=
    if strStartsWith (strSliceFrom part headerEnd) "\r\n\r\n" then headerEnd + 4
    else headerEnd + 2
  trimEndMatchesStr (trimEndMatchesStr (strSliceFrom part contentStart) "\r\n") "\n"

/-- One part of DetachedRequestWrapper::parse_multipart_static: file fields
are not saved; the descriptor's filename and path get a static_mode
placeholder derived from the original name. -/
def parsePartStatic (part : String) : Option (String × FormVal) :=
  if (strTrim part).isEmpty || strStartsWith part "--" then none
  else
    match partHeaderEnd part with
    | none => none
    | some he =>
        let headers := strSlice part 0 he
        let content := partContent part he
        match extract_form_field_name headers with
        | none => none
        | some nm =>
            if strContains headers "filename=" then
              match extract_filename headers with
              | some fn =>
                  some (nm, .file
                    { type := "file", originalName := fn
                    , filename := "static_mode_" ++ fn
                    , path := "static/static_mode_" ++ fn
                    , contentType := extract_content_type headers
                    , size := content.length })
              | none => none
            else some (nm, .str content)

/-- DetachedRequestWrapper::parse_multipart_static: boundary extraction,
split into parts, per-part processing with the parts folded into the form
map. -/
def parse_multipart_static (body ct : String) : List (String × FormVal) :=
  match extractBoundary ct with
  | none => []
  | some b =>
      if b.isEmpty then []
      else
        let delim := "--" ++ actualBoundary body b
        ((strSplitOn body delim).drop 1).foldl
          (fun m part =>
            match parsePartStatic part with
            | some kv => assocPut m kv.1 kv.2
            | none => m) []

/-- Path::extension of the original filename: the piece after the last dot
of the last path component; empty when there is no dot or only a leading
dot. -/
def pathExtension (p : String) : String :=
  let nameComp := (strSplitOn p "/").getLastD ""
  match strSplitOn nameComp "." with
  | [] => ""
  | [_] => ""
  | ["", _] => ""
  | pieces => pieces.getLastD ""

/-- RequestWrapper::save_uploaded_file.  Filesystem and UUID generation are
an oracle: none stands for a failure of directory creation or file write
(the field is dropped with a diagnostic); some u stands for success with
the fresh UUID u, the file being written at the returned path. -/
def save_uploaded_file (headers content : String) (fsOutcome : Option String) :
    Option FileInfo :=
  match extract_filename headers with
  | none => none
  | some orig =>
      match fsOutcome with
      | none => none
      | some uuid =>
          let ext := pathExtension orig
          let unique := if ext.isEmpty then uuid else uuid ++ "." ++ ext
          some { type := "file", originalName := orig, filename := unique
               , path := "static/" ++ unique
               , contentType := extract_content_type headers
               , size := content.length }

/-- One part of RequestWrapper::parse_multipart_with_files; the Bool
records whether a save was attempted (the filesystem oracle is consumed
per file field). -/
def parsePartWithFiles (part : String) (fsOutcome : Option String) :
    Option (String × FormVal) × Bool :=
  if (strTrim part).isEmpty || strStartsWith part "--" then (none, false)
  else
    match partHeaderEnd part with
    | none => (none, false)
    | some he =>
        let headers := strSlice part 0 he
        let content := partContent part he
        match extract_form_field_name headers with
        | none => (none, false)
        | some nm =>
            if strContains headers "filename=" then
              match save_uploaded_file headers content fsOutcome with
              | some fi => (some (nm, .file fi), true)
              | none => (none, true)
            else (some (nm, .str content), false)

/-- RequestWrapper::parse_multipart_with_files with the filesystem oracle
fs: fs n is the outcome of the n-th file-field save. -/
def parse_multipart_with_files (body ct : String) (fs : Nat → Option String) :
    List (String × FormVal) :=
  match extractBoundary ct with
  | none => []
  | some b =>
      if b.isEmpty then []
      else
        let delim := "--" ++ actualBoundary body b
        (((strSplitOn body delim).drop 1).foldl
          (fun acc part =>
            let r := parsePartWithFiles part (fs acc.2)
            ( (match r.1 with
               | some kv => assocPut acc.1 kv.1 kv.2
               | none => acc.1)
            , if r.2 then acc.2 + 1 else acc.2))
          ([], 0)).1

/-- The part strings both multipart parsers iterate over: the boundary from
the content type, the actual boundary from the body's first line, the split
on the delimiter with the preamble dropped (the shared head of
parse_multipart_with_files and parse_multipart_static). -/
def multipartParts (body ct : String) : List String :=
  match extractBoundary ct with
  | none => []
  | some b =>
      if b.isEmpty then []
      else (strSplitOn body ("--" ++ actualBoundary body b)).drop 1

/-- The per-part outcomes of the loop of parse_multipart_with_files, with
the filesystem oracle threaded by the number of save attempts so far: the
loop body factored out of the fold so that per-part properties can be
stated for arbitrary forms. -/
def partOutcomesAux (fs : Nat → Option String) :
    List String → Nat → List (Option (String × FormVal))
  | [], _ => []
  | part :: rest, k =>
      let r := parsePartWithFiles part (fs k)
      r.1 :: partOutcomesAux fs rest (if r.2 then k + 1 else k)

/-- The per-part outcomes of parse_multipart_with_files on a whole form. -/
def partOutcomes (body ct : String) (fs : Nat → Option String) :
    List (Option (String × FormVal)) :=
  partOutcomesAux fs (multipartParts body ct) 0

/-- Folding per-part outcomes into the form map, exactly as the loop of
parse_multipart_with_files inserts them: a some outcome is inserted, a
none outcome (skipped field) leaves the map unchanged. -/
def foldForm (outs : List (Option (String × FormVal))) : List (String × FormVal) :=
  outs.foldl
    (fun m o =>
      match o with
      | some kv => assocPut m kv.1 kv.2
      | none => m) []

/-! ## src/router: route registry (store.rs, read_only.rs)

The matchit Router (a third-party crate, not part of src/) is modelled as
the list of inserted (pattern, callback) pairs with the matching semantics
the specification states in sections 3 and 4.B: a pattern is slash-separated
segments, a segment starting with a colon captures exactly one non-empty
path segment, static segments outrank parameter segments, and inserting a
pattern already present fails. -/

/-- The five supported methods (enum Methods in node_functions.rs). -/
inductive Methods where
  | GET | POST | PUT | PATCH | DELETE
deriving Repr, DecidableEq

/-- One value per method, mirroring the five per-method tries and caches. -/
structure MethodMap (α : Type) where
  get : α
  post : α
  put : α
  patch : α
  delete : α
deriving Repr, DecidableEq

/-- Select the field for a method. -/
def MethodMap.look (m : MethodMap α) : Methods → α
  | .GET => m.get
  | .POST => m.post
  | .PUT => m.put
  | .PATCH => m.patch
  | .DELETE => m.delete

/-- Replace the field for a method. -/
def MethodMap.setAt (m : MethodMap α) (k : Methods) (v : α) : MethodMap α :=
  match k with
  | .GET => { m with get := v }
  | .POST => { m with post := v }
  | .PUT => { m with put := v }
  | .PATCH => { m with patch := v }
  | .DELETE => { m with delete := v }

/-- The same value at every method. -/
def MethodMap.const (v : α) : MethodMap α := ⟨v, v, v, v, v⟩

/-- A matchit router: inserted (pattern, callback) pairs. -/
abbrev Router := List (String × Cb)

/-- A successful match: the callback and the captured parameters. -/
abbrev MatchEntry := Cb × List (String × String)

/-- Match pattern segments against path segments: a colon segment captures
one non-empty path segment, a static segment must be equal. -/
def segMatch : List String → List String → Option (List (String × String))
  | [], [] => some []
  | p :: ps, s :: ss =>
      if strStartsWith p ":" then
        if s.isEmpty then none
        else (segMatch ps ss).map (fun r => (strSliceFrom p 1, s) :: r)
      else if p == s then segMatch ps ss else none
  | _, _ => none

/-- Per-segment kind of a pattern: true marks a parameter segment. -/
def kindWord (pat : String) : List Bool :=
  (strSplitOn pat "/").map (fun s => strStartsWith s ":")

/-- Position-wise priority: static (false) outranks parameter (true). -/
def kindLe : List Bool → List Bool → Bool
  | [], _ => true
  | _ :: _, [] => false
  | a :: as, b :: bs => if a == b then kindLe as bs else (b && !a)

/-- Router::at: among the patterns matching the path, the one whose
segment kinds have the highest static-first priority. -/
def routerAt (r : Router) (path : String) : Option MatchEntry :=
  let ps := strSplitOn path "/"
  let ms := r.filterMap (fun pr =>
    (segMatch (strSplitOn pr.1 "/") ps).map (fun prms => (pr.1, pr.2, prms)))
  match ms with
  | [] => none
  | m0 :: rest =>
      let best := rest.foldl
        (fun acc m => if kindLe (kindWord acc.1) (kindWord m.1) then acc else m) m0
      some (best.2.1, best.2.2)

/-- Router::insert: fails when the pattern is already present (the conflict
matchit reports), leaving the router unchanged. -/
def routerInsert (r : Router) (pat : String) (cb : Cb) : Option Router :=
  if r.any (fun pr => pr.1 == pat) then none else some (r ++ [(pat, cb)])

/-- The global routing state: the writer registry behind the writer lock,
the published reader snapshot, and the five LRU match caches. -/
structure RouterState where
  writer : MethodMap Router
  reader : MethodMap Router
  cache : MethodMap (List (String × MatchEntry))
deriving Repr, DecidableEq

/-- Capacity of each per-method LRU cache (RouteCache::new(1000)). -/
def cacheCapacity : Nat := 1000

/-- LruCache::get: on a hit the entry is moved to most-recently-used
(the front of the list). -/
def cacheGet (c : List (String × MatchEntry)) (k : String) :
    Option (MatchEntry × List (String × MatchEntry)) :=
  match c.find? (fun kv => kv.1 == k) with
  | none => none
  | some kv => some (kv.2, (k, kv.2) :: c.filter (fun kv2 => !(kv2.1 == k)))

/-- LruCache::put: insert at most-recently-used, evicting beyond
capacity. -/
def cachePut (c : List (String × MatchEntry)) (k : String) (e : MatchEntry) :
    List (String × MatchEntry) :=
  ((k, e) :: c.filter (fun kv => !(kv.1 == k))).take cacheCapacity

/-- clear_route_cache from read_only.rs: clears all five caches. -/
def clear_route_cache (st : RouterState) : RouterState :=
  { st with cache := MethodMap.const [] }

/-- initialise_reader from store.rs: publish the writer registry as the
reader snapshot, then clear the cache. -/
def initialise_reader (st : RouterState) : RouterState :=
  clear_route_cache { st with reader := st.writer }

/-- cleanup_route from store.rs: clear the five writer tries and the cache;
the reader snapshot is not republished. -/
def cleanup_route (st : RouterState) : RouterState :=
  clear_route_cache { st with writer := MethodMap.const [] }

/-- add_new_route from store.rs: insert into the chosen method's writer
trie; on conflict return the insertion error without touching the cache;
on success clear the cache.  The reader snapshot is not republished. -/
def add_new_route (route : String) (method : Methods) (function : Cb)
    (st : RouterState) : Except String RouterState :=
  match routerInsert (st.writer.look method) route function with
  | none => .error "Error inserting route"
  | some w2 =>
      .ok (clear_route_cache { st with writer := st.writer.setAt method w2 })

/-- ReadRoutes::get_for_actix_method: the five known methods, by name;
any other method maps to none. -/
def get_for_actix_method : String → Option Methods
  | "GET" => some .GET
  | "POST" => some .POST
  | "PUT" => some .PUT
  | "PATCH" => some .PATCH
  | "DELETE" => some .DELETE
  | _ => none

/-- get_route from read_only.rs: match the path against the published
reader snapshot of the method; the cache is not consulted. -/
def get_route (st : RouterState) (route : String) (method : String) :
    Option Cb :=
  (get_for_actix_method method).bind (fun m =>
    (routerAt (st.reader.look m) route).map (·.1))

/-- get_params from read_only.rs: the captured parameters of the reader
match; the cache is not consulted. -/
def get_params (st : RouterState) (route : String) (method : String) :
    Option (List (String × String)) :=
  (get_for_actix_method method).bind (fun m =>
    (routerAt (st.reader.look m) route).map (·.2))

/-- get_route_with_params_cached from read_only.rs: consult the method's
cache first; on a miss match against the reader snapshot and cache only a
successful match. -/
def get_route_with_params_cached (st : RouterState) (route : String)
    (method : String) : Option MatchEntry × RouterState :=
  match get_for_actix_method method with
  | none => (none, st)
  | some m =>
      match cacheGet (st.cache.look m) route with
      | some ec => (some ec.1, { st with cache := st.cache.setAt m ec.2 })
      | none =>
          match routerAt (st.reader.look m) route with
          | some e =>
              (some e,
               { st with cache := st.cache.setAt m (cachePut (st.cache.look m) route e) })
          | none => (none, st)

/-! ## src/lib.rs: the dispatcher -/

/-- The await budget of the response channel, in seconds
(Duration::from_secs(5) in handle_dynamic_route). -/
def timeoutBudgetSecs : Nat := 5

/-- Body of the 404 response (format string in handle_dynamic_route). -/
def notFoundBody (p : String) : String :=
  "\x7b\"error\": \"Route not found\", \"path\": \"" ++ p ++ "\"\x7d"

/-- Body of the 408 timeout response. -/
def timeoutRespBody : String :=
  "\x7b\"error\": \"Request timeout - JavaScript callback took too long\"\x7d"

/-- Body of the 500 response when the sender is dropped without sending. -/
def droppedRespBody : String :=
  "\x7b\"error\": \"JavaScript callback did not send response\"\x7d"

/-- Outcome of awaiting the one-shot response channel under the timeout:
a received JsResponse, a dropped producer, or an elapsed budget. -/
inductive ChannelOutcome where
  | received (r : JsResponse)
  | producerDropped
  | timedOut
deriving Repr, DecidableEq

/-- handle_dynamic_route from src/lib.rs: look the path up with get_route
(and get_params for the captured parameters); on a miss answer 404; on a
hit translate the channel outcome.  Both lookups only read the reader
snapshot, so the routing state is returned unchanged. -/
def handle_dynamic_route (st : RouterState) (method path : String)
    (outcome : ChannelOutcome) : HttpResp × RouterState :=
  match get_route st path method with
  | some _ =>
      let resp :=
        match outcome with
        | .received r => intoHttpResponse r
        | .producerDropped =>
            { status := 500, contentType := "application/json", headers := []
            , body := .str droppedRespBody }
        | .timedOut =>
            { status := 408, contentType := "application/json", headers := []
            , body := .str timeoutRespBody }
      (resp, st)
  | none =>
      ({ status := 404, contentType := "application/json", headers := []
       , body := .str (notFoundBody path) }, st)

/-! ## Theorems -/

/-- Once the sent flag is set, every operation leaves the state unchanged,
no operation yields a successful send, and terminal sends report the
AlreadySent error. -/
theorem step_of_sent (op : ReqOp) (st : RespState) (h : st.sent = true) :
    (step op st).1 = st ∧ isOkSend (step op st).2 = false ∧
      (isTerminalSend op = true → (step op st).2 = .sendErr alreadySentMsg) := by
  cases op with
  | sendText s => simp [step, sendResponse, h, isOkSend, isTerminalSend]
  | sendJson s => simp [step, sendResponse, h, isOkSend, isTerminalSend]
  | sendObject s => simp [step, sendResponse, h, isOkSend, isTerminalSend]
  | sendEmpty => simp [step, sendResponse, h, isOkSend, isTerminalSend]
  | sendError msg =>
      cases msg <;> simp [step, sendResponse, h, isOkSend, isTerminalSend]
  | setStatus c => simp [step, h, isOkSend, isTerminalSend]
  | addHeader k v => simp [step, h, isOkSend, isTerminalSend]

/-- A run started in an already-sent state changes nothing and contains no
successful send. -/
theorem runOps_of_sent (ops : List ReqOp) (st : RespState) (h : st.sent = true) :
    (runOps ops st).1 = st ∧ countOkSends (runOps ops st).2 = 0 := by
  induction ops with
  | nil => exact ⟨rfl, rfl⟩
  | cons op rest ih =>
      have hs := step_of_sent op st h
      constructor
      · show (runOps rest (step op st).1).1 = st
        rw [hs.1]
        exact ih.1
      · show countOkSends ((step op st).2 :: (runOps rest (step op st).1).2) = 0
        simp only [countOkSends, List.countP_cons, hs.2.1]
        rw [hs.1]
        have h2 := ih.2
        simp only [countOkSends] at h2
        simp [h2]

/-- Non-terminal operations preserve the sent flag and never count as a
successful send. -/
theorem step_not_terminal (op : ReqOp) (st : RespState)
    (h : isTerminalSend op = false) :
    (step op st).1.sent = st.sent ∧ isOkSend (step op st).2 = false := by
  cases op with
  | sendText s => simp [isTerminalSend] at h
  | sendJson s => simp [isTerminalSend] at h
  | sendObject s => simp [isTerminalSend] at h
  | sendEmpty => simp [isTerminalSend] at h
  | sendError msg => simp [isTerminalSend] at h
  | setStatus c =>
      cases hs : st.sent with
      | false =>
          cases hrange : (Nat.ble 100 c && Nat.blt c 1000) <;>
            simp [step, hs, hrange, isOkSend]
      | true => simp [step, hs, isOkSend]
  | addHeader k v => cases hs : st.sent <;> simp [step, hs, isOkSend]

/-- A terminal send in an unsent state succeeds and sets the sent flag. -/
theorem step_terminal_unsent (op : ReqOp) (st : RespState)
    (ht : isTerminalSend op = true) (h : st.sent = false) :
    (step op st).1.sent = true ∧ isOkSend (step op st).2 = true := by
  cases op with
  | sendText s =>
      cases hhs : st.hasSender <;> simp [step, sendResponse, h, hhs, isOkSend]
  | sendJson s =>
      cases hhs : st.hasSender <;> simp [step, sendResponse, h, hhs, isOkSend]
  | sendObject s =>
      cases hhs : st.hasSender <;> simp [step, sendResponse, h, hhs, isOkSend]
  | sendEmpty =>
      cases hhs : st.hasSender <;> simp [step, sendResponse, h, hhs, isOkSend]
  | sendError msg =>
      cases msg <;> cases hhs : st.hasSender <;>
        simp [step, sendResponse, h, hhs, isOkSend]
  | setStatus c => simp [isTerminalSend] at ht
  | addHeader k v => simp [isTerminalSend] at ht

/-- C2: for every request wrapper, at most one terminal send succeeds in
any sequence of operations; once a send has succeeded (the sent flag is
set), every later terminal send fails with the AlreadySent error and
status or header operations leave the response state unchanged. -/
theorem C2_at_most_one_send :
    (∀ (ops : List ReqOp) (st : RespState), countOkSends (runOps ops st).2 ≤ 1)
    ∧ ∀ (op : ReqOp) (st : RespState), st.sent = true →
        (step op st).1 = st
        ∧ (isTerminalSend op = true → (step op st).2 = .sendErr alreadySentMsg) := by
  constructor
  · intro ops
    induction ops with
    | nil => intro st; simp [runOps, countOkSends]
    | cons op rest ih =>
        intro st
        by_cases h : st.sent = true
        · have h0 := (runOps_of_sent (op :: rest) st h).2
          omega
        · have hb : st.sent = false := by
            cases hst : st.sent with
            | false => rfl
            | true => exact absurd hst h
          cases hterm : isTerminalSend op with
          | false =>
              have h1 := step_not_terminal op st hterm
              show countOkSends ((step op st).2 :: (runOps rest (step op st).1).2) ≤ 1
              have h2 := ih (step op st).1
              simp only [countOkSends, List.countP_cons] at h2 ⊢
              simp [h1.2]
              omega
          | true =>
              have h1 := step_terminal_unsent op st hterm hb
              have h2 := (runOps_of_sent rest (step op st).1 h1.1).2
              show countOkSends ((step op st).2 :: (runOps rest (step op st).1).2) ≤ 1
              simp only [countOkSends, List.countP_cons] at h2 ⊢
              simp [h1.2, h2]
  · intro op st h
    exact ⟨(step_of_sent op st h).1, (step_of_sent op st h).2.2⟩

/-- Concrete instance of C2: a two-send run has at most one success, and a
send on an already-sent state reports AlreadySent. -/
theorem C2_witness :
    countOkSends (runOps [ReqOp.sendText "a", ReqOp.sendJson "b"]
      { sent := false, statusCode := none, responseHeaders := [], hasSender := true }).2 ≤ 1
    ∧ (step (ReqOp.sendJson "c")
        { sent := true, statusCode := none, responseHeaders := [], hasSender := false }).2
      = .sendErr alreadySentMsg :=
  ⟨C2_at_most_one_send.1 _ _,
   (C2_at_most_one_send.2 (ReqOp.sendJson "c")
     { sent := true, statusCode := none, responseHeaders := [], hasSender := false } rfl).2 rfl⟩

/-- C7 counterexample: a ServerError record carrying a well-formed custom
header pair is translated to a response with no headers at all, so the
record's custom header pairs are not appended for the error variants. -/
theorem C7_counterexample_headers_dropped :
    (intoHttpResponse
      { inner := .serverError, statusCode := none
      , headers := some [("x-custom", "v")] }).headers = []
    ∧ isValidHeaderValue "v" = true
    ∧ (intoHttpResponse
        { inner := .serverError, statusCode := none
        , headers := some [("x-custom", "v")] }).headers ≠ [("x-custom", "v")] :=
  ⟨rfl, by decide, by decide⟩

/-- C7 amended: the translation maps Text and Empty to text/plain with
charset, Json to application/json with charset, Raw to octet-stream, with
status equal to the override or 200 and the record's headers appended in
order with malformed values skipped; the ServerError variants instead
return a plain 500 text/plain response with the mandated body and without
the record's custom headers or status override. -/
theorem C7_response_translation :
    ∀ r : JsResponse, intoHttpResponse r = specResponseTranslation r := by
  intro r
  obtain ⟨inner, sc, hs⟩ := r
  cases inner <;> rfl

/-- Concrete instance of C7 as amended: a Text record with a status
override translates identically under both formulations. -/
theorem C7_witness :
    intoHttpResponse
      { inner := .text "hi", statusCode := some 201
      , headers := some [("x-a", "b")] }
    = specResponseTranslation
      { inner := .text "hi", statusCode := some 201
      , headers := some [("x-a", "b")] } :=
  C7_response_translation
    { inner := .text "hi", statusCode := some 201, headers := some [("x-a", "b")] }

/-- C10: has_body is true exactly when a body buffer is attached and
non-empty; a present but zero-length body yields has_body false while
get_body_size returns 0. -/
theorem C10_has_body_iff :
    (∀ b : Option (List Nat), has_body b = true ↔ ∃ l, b = some l ∧ l ≠ [])
    ∧ has_body (some []) = false ∧ get_body_size (some []) = 0 := by
  refine ⟨fun b => ?_, rfl, rfl⟩
  cases b with
  | none => simp [has_body]
  | some l =>
      cases l with
      | nil => simp [has_body]
      | cons c t => simp [has_body]

/-- Concrete instance of C10: a two-byte body counts as a body. -/
theorem C10_witness : has_body (some [104, 105]) = true :=
  (C10_has_body_iff.1 (some [104, 105])).mpr ⟨[104, 105], rfl, by decide⟩

/-- Updating a method's entry and reading it back gives the new value. -/
theorem MethodMap.look_setAt (mm : MethodMap α) (k : Methods) (v : α) :
    (mm.setAt k v).look k = v := by
  cases k <;> rfl

/-- Looking a key up in an association list that does not contain it,
extended at the back with that key, finds the appended value. -/
theorem assocFind_append_last {α : Type} (l : List (String × α)) (route : String)
    (f : α) (h : l.any (fun pr => pr.1 == route) = false) :
    assocFind (l ++ [(route, f)]) route = some f := by
  induction l with
  | nil => simp [assocFind]
  | cons p t ih =>
      simp only [List.any_cons, Bool.or_eq_false_iff] at h
      simp only [assocFind, List.cons_append, List.find?_cons, h.1]
      simp only [assocFind] at ih
      exact ih h.2

/-- C1 counterexample: publish a snapshot holding a GET route, then call
cleanup(); the route is gone from the writer registry, yet the next lookup
still finds it, because cleanup clears the writer tries and the cache but
does not republish the reader snapshot. -/
theorem C1_counterexample_stale_snapshot :
    get_route
      (cleanup_route (initialise_reader
        { writer := (MethodMap.const []).setAt Methods.GET [("/a", 1)]
        , reader := MethodMap.const [], cache := MethodMap.const [] }))
      "/a" "GET" = some 1
    ∧ (cleanup_route (initialise_reader
        { writer := (MethodMap.const []).setAt Methods.GET [("/a", 1)]
        , reader := MethodMap.const [], cache := MethodMap.const [] })).writer
      = MethodMap.const [] :=
  ⟨by decide, by decide⟩

/-- C1 amended: a successful register and a cleanup invalidate the match
cache but leave the reader snapshot untouched; the snapshot is published
only by initialise_reader (invoked at server start), after which lookups
agree with the writer registry as of that publication. -/
theorem C1_register_cleanup_publication :
    (∀ (route : String) (m : Methods) (f : Cb) (st st2 : RouterState),
        add_new_route route m f st = .ok st2 →
          st2.reader = st.reader ∧ st2.cache = MethodMap.const [])
    ∧ (∀ st : RouterState,
        (cleanup_route st).reader = st.reader
        ∧ (cleanup_route st).cache = MethodMap.const []
        ∧ (cleanup_route st).writer = MethodMap.const [])
    ∧ ∀ (st : RouterState) (path method : String),
        get_route (initialise_reader st) path method
        = (get_for_actix_method method).bind (fun m =>
            (routerAt (st.writer.look m) path).map (·.1)) := by
  refine ⟨?_, ?_, ?_⟩
  · intro route m f st st2 hadd
    cases hins : routerInsert (st.writer.look m) route f with
    | none => simp [add_new_route, hins] at hadd
    | some w2 =>
        simp only [add_new_route, hins, Except.ok.injEq] at hadd
        subst hadd
        exact ⟨rfl, rfl⟩
  · intro st
    exact ⟨rfl, rfl, rfl⟩
  · intro st path method
    rfl

/-- Concrete instance of C1 as amended: a successful registration leaves
the reader snapshot as it was and clears the cache. -/
theorem C1_witness :
    (clear_route_cache
      { writer := ({ writer := MethodMap.const []
                   , reader := (MethodMap.const []).setAt Methods.GET [("/old", 2)]
                   , cache := (MethodMap.const []).setAt Methods.GET [("/x", (5, []))]
                   } : RouterState).writer.setAt Methods.GET [("/a", 7)]
      , reader := (MethodMap.const []).setAt Methods.GET [("/old", 2)]
      , cache := (MethodMap.const []).setAt Methods.GET [("/x", (5, []))] }).reader
      = ({ writer := MethodMap.const []
         , reader := (MethodMap.const []).setAt Methods.GET [("/old", 2)]
         , cache := (MethodMap.const []).setAt Methods.GET [("/x", (5, []))]
         } : RouterState).reader
    ∧ (clear_route_cache
        { writer := ({ writer := MethodMap.const []
                     , reader := (MethodMap.const []).setAt Methods.GET [("/old", 2)]
                     , cache := (MethodMap.const []).setAt Methods.GET [("/x", (5, []))]
                     } : RouterState).writer.setAt Methods.GET [("/a", 7)]
        , reader := (MethodMap.const []).setAt Methods.GET [("/old", 2)]
        , cache := (MethodMap.const []).setAt Methods.GET [("/x", (5, []))] }).cache
      = MethodMap.const [] :=
  C1_register_cleanup_publication.1 "/a" Methods.GET 7
    { writer := MethodMap.const []
    , reader := (MethodMap.const []).setAt Methods.GET [("/old", 2)]
    , cache := (MethodMap.const []).setAt Methods.GET [("/x", (5, []))] }
    _ rfl

/-- C9: once a registration of (method, pattern) succeeded, a second
registration of the same pair fails with the insertion error and the
callback registered first is still the one stored for that pattern. -/
theorem C9_duplicate_route :
    ∀ (route : String) (m : Methods) (f g : Cb) (st st2 : RouterState),
      add_new_route route m f st = .ok st2 →
        add_new_route route m g st2 = .error "Error inserting route"
        ∧ assocFind (st2.writer.look m) route = some f := by
  intro route m f g st st2 hadd
  cases hins : routerInsert (st.writer.look m) route f with
  | none => simp [add_new_route, hins] at hadd
  | some w2 =>
      have hnotany : (st.writer.look m).any (fun pr => pr.1 == route) = false := by
        by_cases hany : (st.writer.look m).any (fun pr => pr.1 == route) = true
        · simp [routerInsert, hany] at hins
        · exact Bool.eq_false_iff.mpr hany
      have hw2 : w2 = st.writer.look m ++ [(route, f)] := by
        simp only [routerInsert, hnotany, Bool.false_eq_true, if_false,
          Option.some.injEq] at hins
        exact hins.symm
      simp only [add_new_route, hins, Except.ok.injEq] at hadd
      subst hadd
      have hlook :
          ((clear_route_cache
            { st with writer := st.writer.setAt m w2 }).writer.look m) = w2 :=
        MethodMap.look_setAt st.writer m w2
      constructor
      · have hany2 :
            ((clear_route_cache
              { st with writer := st.writer.setAt m w2 }).writer.look m).any
              (fun pr => pr.1 == route) = true := by
          rw [hlook, hw2]
          simp
        simp [add_new_route, routerInsert, hany2]
      · rw [hlook, hw2]
        exact assocFind_append_last _ _ _ hnotany

/-- Concrete instance of C9: re-registering GET /a fails and keeps the
first callback. -/
theorem C9_witness :
    add_new_route "/a" Methods.GET 8
      { writer := (MethodMap.const []).setAt Methods.GET [("/a", 7)]
      , reader := MethodMap.const [], cache := MethodMap.const [] }
      = .error "Error inserting route"
    ∧ assocFind
        (({ writer := (MethodMap.const []).setAt Methods.GET [("/a", 7)]
          , reader := MethodMap.const [], cache := MethodMap.const []
          } : RouterState).writer.look Methods.GET) "/a" = some 7 :=
  C9_duplicate_route "/a" Methods.GET 7 8
    { writer := MethodMap.const [], reader := MethodMap.const []
    , cache := MethodMap.const [] }
    { writer := (MethodMap.const []).setAt Methods.GET [("/a", 7)]
    , reader := MethodMap.const [], cache := MethodMap.const [] }
    rfl

/-- C4 counterexample: the dispatcher's lookup does not consult the match
cache.  In a state whose GET cache holds an entry for the literal path /x
while the published snapshot is empty, the claimed cache-first lookup would
hit; handle_dynamic_route answers 404.  Moreover, after a successful
dispatch of a matching literal path the caches are still empty, so the
next lookup of the same path cannot hit the cache. -/
theorem C4_counterexample_dispatcher_bypasses_cache :
    (handle_dynamic_route
      { writer := MethodMap.const [], reader := MethodMap.const []
      , cache := (MethodMap.const []).setAt Methods.GET [("/x", (7, []))] }
      "GET" "/x" .timedOut).1.status = 404
    ∧ cacheGet
        (({ writer := MethodMap.const [], reader := MethodMap.const []
          , cache := (MethodMap.const []).setAt Methods.GET [("/x", (7, []))]
          } : RouterState).cache.look Methods.GET) "/x" ≠ none
    ∧ (handle_dynamic_route
        { writer := MethodMap.const []
        , reader := (MethodMap.const []).setAt Methods.GET [("/hello", 3)]
        , cache := MethodMap.const [] }
        "GET" "/hello"
        (.received { inner := .text "hi", statusCode := none, headers := none })).2.cache
      = MethodMap.const [] :=
  ⟨by decide, by decide, by decide⟩

/-- C4 amended: the cache-aware lookup get_route_with_params_cached
consults the method's cache first (moving a hit to most-recently-used),
falls through to the reader trie on a miss, caches only successful
matches and leaves the state unchanged on failure; the dispatcher
handle_dynamic_route, however, uses the direct get_route and get_params
lookups and returns the routing state — including the caches —
unchanged. -/
theorem C4_cached_lookup_semantics :
    (∀ (st : RouterState) (method path : String) (o : ChannelOutcome),
        (handle_dynamic_route st method path o).2 = st)
    ∧ (∀ (st : RouterState) (route mstr : String) (m : Methods)
        (e : MatchEntry) (c2 : List (String × MatchEntry)),
        get_for_actix_method mstr = some m →
        cacheGet (st.cache.look m) route = some (e, c2) →
        get_route_with_params_cached st route mstr
          = (some e, { st with cache := st.cache.setAt m c2 }))
    ∧ (∀ (st : RouterState) (route mstr : String) (m : Methods) (e : MatchEntry),
        get_for_actix_method mstr = some m →
        cacheGet (st.cache.look m) route = none →
        routerAt (st.reader.look m) route = some e →
        get_route_with_params_cached st route mstr
          = (some e,
             { st with cache := st.cache.setAt m (cachePut (st.cache.look m) route e) }))
    ∧ ∀ (st : RouterState) (route mstr : String) (m : Methods),
        get_for_actix_method mstr = some m →
        cacheGet (st.cache.look m) route = none →
        routerAt (st.reader.look m) route = none →
        get_route_with_params_cached st route mstr = (none, st) := by
  refine ⟨?_, ?_, ?_, ?_⟩
  · intro st method path o
    unfold handle_dynamic_route
    cases get_route st path method with
    | none => rfl
    | some cb => cases o <;> rfl
  · intro st route mstr m e c2 hm hc
    simp [get_route_with_params_cached, hm, hc]
  · intro st route mstr m e hm hc hr
    simp [get_route_with_params_cached, hm, hc, hr]
  · intro st route mstr m hm hc hr
    simp [get_route_with_params_cached, hm, hc, hr]

/-- Concrete instance of C4 as amended: a cached literal path hits and is
moved to most-recently-used. -/
theorem C4_witness :
    get_route_with_params_cached
      { writer := MethodMap.const [], reader := MethodMap.const []
      , cache := (MethodMap.const []).setAt Methods.GET [("/x", (7, []))] }
      "/x" "GET"
      = (some (7, []),
         { ({ writer := MethodMap.const [], reader := MethodMap.const []
            , cache := (MethodMap.const []).setAt Methods.GET [("/x", (7, []))]
            } : RouterState) with
           cache := ({ writer := MethodMap.const [], reader := MethodMap.const []
                     , cache := (MethodMap.const []).setAt Methods.GET [("/x", (7, []))]
                     } : RouterState).cache.setAt Methods.GET [("/x", (7, []))] }) :=
  C4_cached_lookup_semantics.2.1
    { writer := MethodMap.const [], reader := MethodMap.const []
    , cache := (MethodMap.const []).setAt Methods.GET [("/x", (7, []))] }
    "/x" "GET" Methods.GET (7, []) [("/x", (7, []))] (by decide) (by decide)

/-- C3 counterexample: the await budget in handle_dynamic_route is 5
seconds, not the claimed 10, and the 408 body carries a space after the
error key, so it differs from the claimed exact body. -/
theorem C3_counterexample_budget_and_body :
    timeoutBudgetSecs = 5 ∧ timeoutBudgetSecs ≠ 10
    ∧ (handle_dynamic_route
        { writer := MethodMap.const []
        , reader := (MethodMap.const []).setAt Methods.GET [("/hello", 3)]
        , cache := MethodMap.const [] }
        "GET" "/hello" .timedOut).1
      = { status := 408, contentType := "application/json", headers := []
        , body := .str "\x7b\"error\": \"Request timeout - JavaScript callback took too long\"\x7d" }
    ∧ timeoutRespBody
      ≠ "\x7b\"error\":\"Request timeout - JavaScript callback took too long\"\x7d" :=
  ⟨rfl, by decide, by decide, by decide⟩

/-- C3 amended: the dispatcher awaits the response channel with a 5-second
budget, and when the budget elapses before the callback sends, a matched
request is answered 408 with the JSON body carrying spaces after the
colons, exactly as in the source. -/
theorem C3_timeout_408 :
    timeoutBudgetSecs = 5
    ∧ ∀ (st : RouterState) (method path : String) (cb : Cb),
        get_route st path method = some cb →
          (handle_dynamic_route st method path .timedOut).1
          = { status := 408, contentType := "application/json", headers := []
            , body := .str "\x7b\"error\": \"Request timeout - JavaScript callback took too long\"\x7d" } := by
  refine ⟨rfl, ?_⟩
  intro st method path cb h
  unfold handle_dynamic_route
  rw [h]
  rfl

/-- Concrete instance of C3 as amended: a registered route timing out is
answered 408 with the source's exact body. -/
theorem C3_witness :
    (handle_dynamic_route
      { writer := MethodMap.const []
      , reader := (MethodMap.const []).setAt Methods.GET [("/hello", 3)]
      , cache := MethodMap.const [] }
      "GET" "/hello" .timedOut).1
    = { status := 408, contentType := "application/json", headers := []
      , body := .str "\x7b\"error\": \"Request timeout - JavaScript callback took too long\"\x7d" } :=
  C3_timeout_408.2
    { writer := MethodMap.const []
    , reader := (MethodMap.const []).setAt Methods.GET [("/hello", 3)]
    , cache := MethodMap.const [] }
    "GET" "/hello" 3 (by decide)

/-- C8 counterexample: the 404 body contains spaces after the colons and
the comma, so it differs from the claimed exact body. -/
theorem C8_counterexample_body_spacing :
    (handle_dynamic_route
      { writer := MethodMap.const [], reader := MethodMap.const []
      , cache := MethodMap.const [] }
      "GET" "/nope" .timedOut).1
    = { status := 404, contentType := "application/json", headers := []
      , body := .str "\x7b\"error\": \"Route not found\", \"path\": \"/nope\"\x7d" }
    ∧ ("\x7b\"error\": \"Route not found\", \"path\": \"/nope\"\x7d" : String)
      ≠ "\x7b\"error\":\"Route not found\",\"path\":\"/nope\"\x7d" :=
  ⟨by decide, by decide⟩

/-- C8 amended: every request whose (method, path) matches no route in the
published snapshot — in particular every request whose method is outside
the five supported ones — is answered 404 with content type
application/json and the source's 404 body (spaces after the colons and
the comma). -/
theorem C8_not_found_404 :
    (∀ (st : RouterState) (method path : String) (o : ChannelOutcome),
        get_route st path method = none →
          (handle_dynamic_route st method path o).1
          = { status := 404, contentType := "application/json", headers := []
            , body := .str (notFoundBody path) })
    ∧ ∀ (st : RouterState) (method path : String),
        get_for_actix_method method = none → get_route st path method = none := by
  constructor
  · intro st method path o h
    unfold handle_dynamic_route
    rw [h]
  · intro st method path h
    unfold get_route
    rw [h]
    rfl

/-- Concrete instance of C8 as amended: a GET for an unregistered path and
an OPTIONS request are both misses answered 404. -/
theorem C8_witness :
    (handle_dynamic_route
      { writer := MethodMap.const [], reader := MethodMap.const []
      , cache := MethodMap.const [] }
      "GET" "/nope" .timedOut).1
    = { status := 404, contentType := "application/json", headers := []
      , body := .str (notFoundBody "/nope") }
    ∧ get_route
        { writer := MethodMap.const [], reader := MethodMap.const []
        , cache := MethodMap.const [] }
        "/x" "OPTIONS" = none :=
  ⟨C8_not_found_404.1
    { writer := MethodMap.const [], reader := MethodMap.const []
    , cache := MethodMap.const [] }
    "GET" "/nope" .timedOut (by decide),
   C8_not_found_404.2
    { writer := MethodMap.const [], reader := MethodMap.const []
    , cache := MethodMap.const [] }
    "OPTIONS" "/x" (by decide)⟩

/-- C6 counterexample: the detached parse keeps percent escapes verbatim,
so query_params differs from the claimed percent-decoded parse. -/
theorem C6_counterexample_no_percent_decoding :
    (newDetached "a=%41" none).queryParams = [("a", "%41")]
    ∧ specQueryParse "a=%41" = [("a", "A")]
    ∧ (newDetached "a=%41" none).queryParams ≠ specQueryParse "a=%41" :=
  ⟨by decide, by decide, by decide⟩

/-- C6 amended: for every non-empty query string, query_params equals the
ampersand-separated parse splitting each pair at its first equals sign
with the key and value kept verbatim — no percent-decoding — and pairs
without an equals sign dropped. -/
theorem C6_query_params_raw :
    (∀ (q : String) (body : Option (List Nat)), q ≠ "" →
        (newDetached q body).queryParams = parse_query_params_static q)
    ∧ parse_query_params_static "a=%41" = [("a", "%41")]
    ∧ parse_query_params_static "a&b=2" = [("b", "2")]
    ∧ parse_query_params_static "k=v=w" = [("k", "v=w")] := by
  refine ⟨?_, by decide, by decide, by decide⟩
  intro q body hq
  have hqe : q.isEmpty = false := by
    cases hqe : q.isEmpty with
    | false => rfl
    | true => exact absurd ((String.isEmpty_iff q).1 hqe) hq
  unfold newDetached DetachedReq.queryParams
  simp [hqe]

/-- Concrete instance of C6 as amended. -/
theorem C6_witness :
    (newDetached "a=%41" none).queryParams = parse_query_params_static "a=%41" :=
  C6_query_params_raw.1 "a=%41" none (by decide)

/-- C5 counterexample: in DetachedRequestWrapper::parse_multipart_static,
two file parts carrying the same original filename both yield the
descriptor path static/static_mode_a.png — the filename is a deterministic
placeholder derived from the original name, not a freshly generated unique
filename, and no file is written. -/
theorem C5_counterexample_static_mode :
    assocFind (parse_multipart_static
      "--b\nContent-Disposition: form-data; name=\"f\"; filename=\"a.png\"\n\nX\n--b\nContent-Disposition: form-data; name=\"g\"; filename=\"a.png\"\n\nY\n--b--\n"
      "multipart/form-data; boundary=b") "f"
      = some (.file { type := "file", originalName := "a.png", filename := "static_mode_a.png", path := "static/static_mode_a.png", contentType := none, size := 1 })
    ∧ assocFind (parse_multipart_static
        "--b\nContent-Disposition: form-data; name=\"f\"; filename=\"a.png\"\n\nX\n--b\nContent-Disposition: form-data; name=\"g\"; filename=\"a.png\"\n\nY\n--b--\n"
        "multipart/form-data; boundary=b") "g"
      = some (.file { type := "file", originalName := "a.png", filename := "static_mode_a.png", path := "static/static_mode_a.png", contentType := none, size := 1 }) :=
  ⟨by decide, by decide⟩

/-- The loop state of parse_multipart_with_files depends on the filesystem
oracle only inside the file branch: the save-attempt flag is
oracle-independent, and a part that attempts no save has an
oracle-independent outcome. -/
theorem parsePart_oracle (part : String) (o1 o2 : Option String) :
    (parsePartWithFiles part o1).2 = (parsePartWithFiles part o2).2
    ∧ ((parsePartWithFiles part o1).2 = false →
        (parsePartWithFiles part o1).1 = (parsePartWithFiles part o2).1) := by
  by_cases h1 : ((strTrim part).isEmpty || strStartsWith part "--") = true
  · simp [parsePartWithFiles, h1]
  · have h1f : ((strTrim part).isEmpty || strStartsWith part "--") = false :=
      Bool.eq_false_iff.mpr h1
    cases hhe : partHeaderEnd part with
    | none => simp [parsePartWithFiles, h1f, hhe]
    | some he =>
        cases hn : extract_form_field_name (strSlice part 0 he) with
        | none => simp [parsePartWithFiles, h1f, hhe, hn]
        | some nm =>
            by_cases hf : strContains (strSlice part 0 he) "filename=" = true
            · cases hs1 : save_uploaded_file (strSlice part 0 he) (partContent part he) o1 <;>
                cases hs2 : save_uploaded_file (strSlice part 0 he) (partContent part he) o2 <;>
                  simp [parsePartWithFiles, h1f, hhe, hn, hf, hs1, hs2]
            · have hff : strContains (strSlice part 0 he) "filename=" = false :=
                Bool.eq_false_iff.mpr hf
              simp [parsePartWithFiles, h1f, hhe, hn, hff]

/-- save_uploaded_file drops the field on a filesystem failure, for every
part. -/
theorem save_uploaded_file_of_fs_error (headers content : String) :
    save_uploaded_file headers content none = none := by
  unfold save_uploaded_file
  cases extract_filename headers <;> rfl

/-- A part that attempts a save under the failing oracle contributes no
field: its outcome is dropped. -/
theorem parsePart_none_of_attempt (part : String)
    (h : (parsePartWithFiles part none).2 = true) :
    (parsePartWithFiles part none).1 = none := by
  by_cases h1 : ((strTrim part).isEmpty || strStartsWith part "--") = true
  · simp [parsePartWithFiles, h1] at h
  · have h1f : ((strTrim part).isEmpty || strStartsWith part "--") = false :=
      Bool.eq_false_iff.mpr h1
    cases hhe : partHeaderEnd part with
    | none => simp [parsePartWithFiles, h1f, hhe] at h
    | some he =>
        cases hn : extract_form_field_name (strSlice part 0 he) with
        | none => simp [parsePartWithFiles, h1f, hhe, hn] at h
        | some nm =>
            by_cases hf : strContains (strSlice part 0 he) "filename=" = true
            · simp [parsePartWithFiles, h1f, hhe, hn, hf,
                save_uploaded_file_of_fs_error]
            · have hff : strContains (strSlice part 0 he) "filename=" = false :=
                Bool.eq_false_iff.mpr hf
              simp [parsePartWithFiles, h1f, hhe, hn, hff] at h

/-- Every part contributes exactly one outcome slot. -/
theorem partOutcomesAux_length (fs : Nat → Option String) (parts : List String) :
    ∀ k, (partOutcomesAux fs parts k).length = parts.length := by
  induction parts with
  | nil => intro k; rfl
  | cons p rest ih =>
      intro k
      simp only [partOutcomesAux, List.length_cons]
      rw [ih]

/-- The fold of parse_multipart_with_files equals folding the per-part
outcome list, for every accumulator and attempt counter. -/
theorem multipart_foldAux (fs : Nat → Option String) (parts : List String) :
    ∀ (m : List (String × FormVal)) (k : Nat),
    (parts.foldl
      (fun acc part =>
        let r := parsePartWithFiles part (fs acc.2)
        ( (match r.1 with
           | some kv => assocPut acc.1 kv.1 kv.2
           | none => acc.1)
        , if r.2 then acc.2 + 1 else acc.2))
      (m, k)).1
    = (partOutcomesAux fs parts k).foldl
        (fun m2 o =>
          match o with
          | some kv => assocPut m2 kv.1 kv.2
          | none => m2) m := by
  induction parts with
  | nil => intro m k; rfl
  | cons p rest ih =>
      intro m k
      simp only [List.foldl_cons, partOutcomesAux]
      exact ih _ _

/-- Prepending the same outcome preserves the at-most-one-difference
relation between outcome lists. -/
theorem liftConsOutcome (a : Option (String × FormVal))
    (l1 l2 : List (Option (String × FormVal)))
    (hex : ∃ i0 : Nat, (∀ i, i ≠ i0 → l1.get? i = l2.get? i)
      ∧ (l1.get? i0 = l2.get? i0 ∨ l1.get? i0 = some none)) :
    ∃ i0 : Nat, (∀ i, i ≠ i0 → (a :: l1).get? i = (a :: l2).get? i)
      ∧ ((a :: l1).get? i0 = (a :: l2).get? i0 ∨ (a :: l1).get? i0 = some none) := by
  obtain ⟨i0, hall, hat⟩ := hex
  refine ⟨i0 + 1, ?_, ?_⟩
  · intro i hi
    cases i with
    | zero => rfl
    | succ j =>
        have hj : j ≠ i0 := by omega
        simpa using hall j hj
  · simpa using hat

/-- Unfolding one step of the outcome list. -/
theorem partOutcomesAux_cons (f : Nat → Option String) (p : String)
    (rest : List String) (k : Nat) :
    partOutcomesAux f (p :: rest) k
    = (parsePartWithFiles p (f k)).1
      :: partOutcomesAux f rest (if (parsePartWithFiles p (f k)).2 then k + 1 else k) :=
  rfl

/-- Failing the filesystem oracle at one attempt index changes the per-part
outcomes at no position once the attempt counter is past the failing
index, and at most one position differs at all: there the field is dropped
to none.  The rest of the form is processed unchanged. -/
theorem partOutcomesAux_failAt (fs : Nat → Option String) (n : Nat) :
    ∀ (parts : List String) (k : Nat),
    (n < k →
      partOutcomesAux (fun i => if i == n then none else fs i) parts k
        = partOutcomesAux fs parts k)
    ∧ ∃ i0 : Nat,
        (∀ i, i ≠ i0 →
          (partOutcomesAux (fun i => if i == n then none else fs i) parts k).get? i
            = (partOutcomesAux fs parts k).get? i)
        ∧ ((partOutcomesAux (fun i => if i == n then none else fs i) parts k).get? i0
             = (partOutcomesAux fs parts k).get? i0
           ∨ (partOutcomesAux (fun i => if i == n then none else fs i) parts k).get? i0
             = some none) := by
  intro parts
  induction parts with
  | nil => intro k; exact ⟨fun _ => rfl, 0, fun i _ => rfl, Or.inl rfl⟩
  | cons p rest ih =>
      intro k
      by_cases hkn : k = n
      · refine ⟨fun hk => absurd hkn (by omega), ?_⟩
        have horacle : ((if (k == n) then none else fs k) : Option String) = none := by
          simp [hkn]
        rw [partOutcomesAux_cons, partOutcomesAux_cons, horacle]
        have h2eq := (parsePart_oracle p none (fs k)).1
        cases hr2 : (parsePartWithFiles p none).2 with
        | false =>
            have hgood2 : (parsePartWithFiles p (fs k)).2 = false := h2eq.symm.trans hr2
            have h1eq := (parsePart_oracle p none (fs k)).2 hr2
            rw [hgood2, h1eq]
            exact liftConsOutcome _ _ _ (ih k).2
        | true =>
            have hgood2 : (parsePartWithFiles p (fs k)).2 = true := h2eq.symm.trans hr2
            have hnone := parsePart_none_of_attempt p hr2
            have hteq :
                partOutcomesAux (fun i => if i == n then none else fs i) rest (k + 1)
                  = partOutcomesAux fs rest (k + 1) := (ih (k + 1)).1 (by omega)
            rw [hgood2, hnone]
            refine ⟨0, ?_, Or.inr rfl⟩
            intro i hi
            cases i with
            | zero => exact absurd rfl hi
            | succ j =>
                show (partOutcomesAux (fun i => if i == n then none else fs i)
                    rest (k + 1)).get? j
                  = (partOutcomesAux fs rest (k + 1)).get? j
                rw [hteq]
      · have horacle : ((if (k == n) then none else fs k) : Option String) = fs k := by
          simp [hkn]
        constructor
        · intro hk
          rw [partOutcomesAux_cons, partOutcomesAux_cons, horacle]
          cases hr2 : (parsePartWithFiles p (fs k)).2 with
          | false =>
              exact congrArg (List.cons (parsePartWithFiles p (fs k)).1)
                ((ih k).1 (by omega))
          | true =>
              exact congrArg (List.cons (parsePartWithFiles p (fs k)).1)
                ((ih (k + 1)).1 (by omega))
        · rw [partOutcomesAux_cons, partOutcomesAux_cons, horacle]
          cases hr2 : (parsePartWithFiles p (fs k)).2 with
          | false => exact liftConsOutcome _ _ _ (ih k).2
          | true => exact liftConsOutcome _ _ _ (ih (k + 1)).2

/-- C5 amended: for every multipart part with a filename, RequestWrapper's
save_uploaded_file persists to a path under the sibling static directory
made of the fresh UUID with the original name's extension preserved, the
descriptor's path naming exactly that file; a filesystem error (directory
creation or write) drops the field; the whole parse is the fold of the
per-part outcomes, and failing the filesystem at any one attempt changes
at most one outcome, dropping it to none, with every other part of the
form processed unchanged.  In DetachedRequestWrapper's parse_multipart_static,
every file part's descriptor instead uses the deterministic
static_mode placeholder derived from the original name: nothing fresh,
nothing persisted. -/
theorem C5_multipart_file_fields :
    (∀ (headers content u : String) (fi : FileInfo),
        save_uploaded_file headers content (some u) = some fi →
          fi.type = "file"
          ∧ extract_filename headers = some fi.originalName
          ∧ fi.filename = (if (pathExtension fi.originalName).isEmpty then u
                           else u ++ "." ++ pathExtension fi.originalName)
          ∧ fi.path = "static/" ++ fi.filename
          ∧ fi.contentType = extract_content_type headers
          ∧ fi.size = content.length)
    ∧ (∀ headers content : String, save_uploaded_file headers content none = none)
    ∧ (∀ (body ct : String) (fs : Nat → Option String),
        parse_multipart_with_files body ct fs = foldForm (partOutcomes body ct fs))
    ∧ (∀ (body ct : String) (fs : Nat → Option String) (n : Nat),
        (partOutcomes body ct (fun i => if i == n then none else fs i)).length
          = (partOutcomes body ct fs).length
        ∧ ∃ i0 : Nat,
            (∀ i, i ≠ i0 →
              (partOutcomes body ct (fun i => if i == n then none else fs i)).get? i
                = (partOutcomes body ct fs).get? i)
            ∧ ((partOutcomes body ct (fun i => if i == n then none else fs i)).get? i0
                 = (partOutcomes body ct fs).get? i0
               ∨ (partOutcomes body ct (fun i => if i == n then none else fs i)).get? i0
                 = some none))
    ∧ ∀ (part nm : String) (fi : FileInfo),
        parsePartStatic part = some (nm, .file fi) →
          fi.filename = "static_mode_" ++ fi.originalName
          ∧ fi.path = "static/static_mode_" ++ fi.originalName := by
  refine ⟨?_, save_uploaded_file_of_fs_error, ?_, ?_, ?_⟩
  · intro headers content u fi h
    unfold save_uploaded_file at h
    cases he : extract_filename headers with
    | none => rw [he] at h; exact Option.noConfusion h
    | some orig =>
        rw [he] at h
        injection h with h3
        subst h3
        exact ⟨rfl, rfl, rfl, rfl, rfl, rfl⟩
  · intro body ct fs
    unfold parse_multipart_with_files foldForm partOutcomes multipartParts
    cases hb : extractBoundary ct with
    | none => rfl
    | some b =>
        cases hbe : b.isEmpty with
        | true => simp [hbe, partOutcomesAux]
        | false =>
            simp only [hbe, Bool.false_eq_true, if_false]
            exact multipart_foldAux fs _ [] 0
  · intro body ct fs n
    constructor
    · simp only [partOutcomes]
      rw [partOutcomesAux_length, partOutcomesAux_length]
    · simp only [partOutcomes]
      exact (partOutcomesAux_failAt fs n (multipartParts body ct) 0).2
  · intro part nm fi h
    by_cases h1 : ((strTrim part).isEmpty || strStartsWith part "--") = true
    · simp [parsePartStatic, h1] at h
    · have h1f : ((strTrim part).isEmpty || strStartsWith part "--") = false :=
        Bool.eq_false_iff.mpr h1
      cases hhe : partHeaderEnd part with
      | none => simp [parsePartStatic, h1f, hhe] at h
      | some he =>
          cases hn : extract_form_field_name (strSlice part 0 he) with
          | none => simp [parsePartStatic, h1f, hhe, hn] at h
          | some nm2 =>
              by_cases hf : strContains (strSlice part 0 he) "filename=" = true
              · cases hfn : extract_filename (strSlice part 0 he) with
                | none => simp [parsePartStatic, h1f, hhe, hn, hf, hfn] at h
                | some fn =>
                    simp [parsePartStatic, h1f, hhe, hn, hf, hfn] at h
                    obtain ⟨hnm, hfi⟩ := h
                    subst hfi
                    exact ⟨rfl, rfl⟩
              · have hff : strContains (strSlice part 0 he) "filename=" = false :=
                  Bool.eq_false_iff.mpr hf
                simp [parsePartStatic, h1f, hhe, hn, hff] at h

/-- Concrete instance of C5 as amended: a saved a.png part's descriptor
path names the static file built from the fresh UUID with the extension
preserved, and a static-mode a.png part's descriptor carries the
deterministic placeholder name. -/
theorem C5_witness :
    ({ type := "file", originalName := "a.png", filename := "u0.png"
     , path := "static/u0.png", contentType := some "image/png", size := 5 } : FileInfo).path
      = "static/"
        ++ ({ type := "file", originalName := "a.png", filename := "u0.png"
            , path := "static/u0.png", contentType := some "image/png", size := 5 } : FileInfo).filename
    ∧ ({ type := "file", originalName := "a.png", filename := "static_mode_a.png"
       , path := "static/static_mode_a.png", contentType := none, size := 1 } : FileInfo).filename
      = "static_mode_"
        ++ ({ type := "file", originalName := "a.png", filename := "static_mode_a.png"
            , path := "static/static_mode_a.png", contentType := none, size := 1 } : FileInfo).originalName :=
  ⟨(C5_multipart_file_fields.1
     "Content-Disposition: form-data; name=\"avatar\"; filename=\"a.png\"\r\nContent-Type: image/png"
     "hello" "u0" _ (by decide)).2.2.2.1,
   (C5_multipart_file_fields.2.2.2.2
     "\nContent-Disposition: form-data; name=\"g\"; filename=\"a.png\"\n\nY\n" "g" _ (by decide)).1⟩

end ActixJs
